import Mathlib

/-!
# Verification of PySyft `syft/core/common/serde/serializable.py`

Shallow embedding of the serde core: the `bind_protobuf` registration
decorator, the `Serializable` base-class contract, and the
`serialize` dispatcher with its `DataMessage` envelope, together with
theorems settling the specification's claims about them.

Wire bytes are modelled as `List Nat` (each entry one byte). Protobuf
messages produced by `_object2proto` are opaque to the dispatcher
except for their deterministic wire form, so they are modelled by that
wire form. The envelope `DataMessage { obj_type: string, content: bytes }`
is given its concrete protobuf encoding (length-delimited fields with
varint tags and lengths) so that envelope-level theorems are about real
byte strings.
-/

namespace PySyft

/-- Wire-level byte strings: one `Nat` per byte. -/
abbrev Bytes := List Nat

/-! ## Varint and length-delimited encoding (protobuf wire format) -/

/-- Protobuf base-128 varint encoding: seven payload bits per byte,
low group first, continuation bit `0x80` on every byte but the last. -/
def varintEncode (n : Nat) : Bytes :=
  if h : n < 128 then [n]
  else (n % 128 + 128) :: varintEncode (n / 128)
termination_by n
decreasing_by
  exact Nat.div_lt_self (Nat.lt_of_lt_of_le (by omega) (Nat.le_of_not_lt h)) (by omega)

/-- Varint decoding: reads bytes until one without the continuation bit,
returning the decoded value and the unconsumed tail. -/
def varintDecode : Bytes → Option (Nat × Bytes)
  | [] => none
  | b :: rest =>
    if b < 128 then some (b, rest)
    else
      match varintDecode rest with
      | some (n, rest') => some (n * 128 + (b - 128), rest')
      | none => none

/-- Decoding a varint encoding recovers the value and the trailing bytes. -/
theorem varintDecode_encode (n : Nat) (rest : Bytes) :
    varintDecode (varintEncode n ++ rest) = some (n, rest) := by
  induction n using varintEncode.induct with
  | case1 n h =>
    simp [varintEncode, varintDecode, h]
  | case2 n h ih =>
    rw [varintEncode]
    simp only [h, dite_false, List.cons_append]
    rw [varintDecode]
    have h128 : ¬ n % 128 + 128 < 128 := by omega
    simp only [h128, if_false, ih]
    have hdm := Nat.div_add_mod n 128
    simp only [Option.some.injEq, Prod.mk.injEq]
    exact ⟨by omega, trivial⟩

/-- A length-delimited protobuf field: varint key `fieldNo * 8 + 2`
(wire type 2), varint byte length, then the payload bytes. -/
def lenDelim (fieldNo : Nat) (payload : Bytes) : Bytes :=
  varintEncode (fieldNo * 8 + 2) ++ varintEncode payload.length ++ payload

/-- Parse one length-delimited field with the given field number, returning
the payload and the unconsumed tail. -/
def parseLenDelim (fieldNo : Nat) (l : Bytes) : Option (Bytes × Bytes) :=
  match varintDecode l with
  | none => none
  | some (key, rest) =>
    if key = fieldNo * 8 + 2 then
      match varintDecode rest with
      | none => none
      | some (len, rest') =>
        if len ≤ rest'.length then some (rest'.take len, rest'.drop len)
        else none
    else none

/-- Parsing a length-delimited field recovers its payload and the tail. -/
theorem parseLenDelim_lenDelim (fieldNo : Nat) (payload : Bytes) (rest : Bytes) :
    parseLenDelim fieldNo (lenDelim fieldNo payload ++ rest) = some (payload, rest) := by
  unfold lenDelim parseLenDelim
  rw [List.append_assoc, List.append_assoc, varintDecode_encode]
  simp only [if_pos rfl]
  rw [varintDecode_encode]
  have hlen : payload.length ≤ (payload ++ rest).length := by
    simp [List.length_append]
  simp only [hlen, if_true]
  rw [List.take_left, List.drop_left]

/-! ## Strings on the wire

`get_fully_qualified_name` returns a Python string which the envelope
stores in its `obj_type` field. The model maps a string to its
character-code byte string; this encoding is injective, which is all the
claims need of the external UTF-8 encoder. -/

/-- Byte form of a string stored in a protobuf string field. -/
def strBytes (s : String) : Bytes := s.data.map Char.toNat

theorem strBytes_injective : Function.Injective strBytes := by
  intro s t h
  have hd : s.data = t.data := by
    refine List.map_injective_iff.mpr (fun a b hab => ?_) h
    exact Char.ext (UInt32.ext hab)
  cases s; cases t
  exact congrArg String.mk hd

/-! ## The `DataMessage` envelope

`syft.proto.util.data_message_pb2.DataMessage` has two fields:
`obj_type: string` (field 1) and `content: bytes` (field 2). -/

/-- The envelope message built by `Serializable.serialize` in bytes mode. -/
structure DataMessage where
  obj_type : String
  content : Bytes
deriving DecidableEq, Repr

/-- Model of `DataMessage.SerializeToString()`: field 1 then field 2, each
length-delimited. Deterministic by construction. -/
def DataMessage.serializeToString (m : DataMessage) : Bytes :=
  lenDelim 1 (strBytes m.obj_type) ++ lenDelim 2 m.content

/-- Parse envelope bytes back into the raw `(obj_type bytes, content)`
fields; `none` models `MalformedEnvelope`. -/
def DataMessage.parseFields (l : Bytes) : Option (Bytes × Bytes) :=
  match parseLenDelim 1 l with
  | none => none
  | some (tag, rest) =>
    match parseLenDelim 2 rest with
    | none => none
    | some (content, rest') =>
      if rest' = [] then some (tag, content) else none

/-- Envelope codec round trip: parsing the serialized envelope recovers
both fields. -/
theorem DataMessage.parseFields_serializeToString (m : DataMessage) :
    DataMessage.parseFields m.serializeToString = some (strBytes m.obj_type, m.content) := by
  have h1 : parseLenDelim 1 (lenDelim 1 (strBytes m.obj_type) ++ lenDelim 2 m.content)
      = some (strBytes m.obj_type, lenDelim 2 m.content) :=
    parseLenDelim_lenDelim 1 _ _
  have h2 : parseLenDelim 2 (lenDelim 2 m.content) = some (m.content, []) := by
    simpa using parseLenDelim_lenDelim 2 m.content []
  unfold DataMessage.parseFields DataMessage.serializeToString
  rw [h1]
  simp [h2]

/-! ## Errors

`traceback_and_raise` logs and raises; raising is modelled by
`Except.error`. The source raises `NotImplementedError` from the
unimplemented base methods and a plain `Exception` (the spec's
`NoModeSpecified`) when `serialize` is called with no mode;
`validate_type` raises on a shape mismatch (the spec's `TypeMismatch`). -/

inductive SerdeError where
  | notImplemented
  | noModeSpecified
  | typeMismatch
  | malformedEnvelope
  | unknownType
  | ambiguousType
deriving DecidableEq, Repr

instance {ε α : Type} [DecidableEq ε] [DecidableEq α] : DecidableEq (Except ε α)
  | .ok x, .ok y =>
    if h : x = y then .isTrue (by rw [h]) else .isFalse (fun hc => h (Except.ok.inj hc))
  | .error x, .error y =>
    if h : x = y then .isTrue (by rw [h]) else .isFalse (fun hc => h (Except.error.inj hc))
  | .ok _, .error _ => .isFalse (fun hc => Except.noConfusion hc)
  | .error _, .ok _ => .isFalse (fun hc => Except.noConfusion hc)

/-- A protobuf message as the dispatcher sees it: opaque except for its
deterministic `SerializeToString()` wire form, so it is modelled by that
wire form. -/
structure ProtoMsg where
  wire : Bytes
deriving DecidableEq, Repr

/-- What `Serializable.serialize` consults on `self`: the value of
`get_fully_qualified_name(obj=self)`, the outcome of `self._object2proto()`
(which raises `NotImplementedError` when never overridden), and the
optional `name` attribute probed by the `named` property. -/
structure SerializableInstance where
  fqn : String
  object2proto : Except SerdeError ProtoMsg
  name : Option String
deriving DecidableEq, Repr

/-- Results of `serialize`: a protobuf `Message` or envelope bytes. -/
inductive SerializeResult where
  | asProto (m : ProtoMsg)
  | asBytes (b : Bytes)
deriving DecidableEq, Repr

/-- Python `Serializable.serialize(self, to_proto=True, to_bytes=False)`:
`if to_bytes:` build and encode the `DataMessage` envelope;
`elif to_proto:` return `self._object2proto()`; `else` raise. -/
def SerializableInstance.serialize (self : SerializableInstance)
    (to_proto : Bool := true) (to_bytes : Bool := false) :
    Except SerdeError SerializeResult :=
  if to_bytes then do
    let proto ← self.object2proto
    let serialized_data := proto.wire
    let blob : DataMessage := { obj_type := self.fqn, content := serialized_data }
    pure (.asBytes blob.serializeToString)
  else if to_proto then do
    let proto ← self.object2proto
    pure (.asProto proto)
  else
    .error .noModeSpecified

/-- Modelled from the spec: `validate_type` (imported from `syft.util`,
not under `src/`) asserts the returned value's runtime shape matches the
expected output type — here `Message` — failing with `TypeMismatch`. -/
def validateMessage : SerializeResult → Except SerdeError ProtoMsg
  | .asProto m => .ok m
  | .asBytes _ => .error .typeMismatch

/-- Modelled from the spec: `validate_type` specialised to `bytes`. -/
def validateBytes : SerializeResult → Except SerdeError Bytes
  | .asBytes b => .ok b
  | .asProto _ => .error .typeMismatch

/-- Method `Serializable.to_proto`: `validate_type(self.serialize(to_proto=True), Message)`
(`to_bytes` keeps its default `False`). -/
def SerializableInstance.to_proto (self : SerializableInstance) :
    Except SerdeError ProtoMsg :=
  self.serialize true false >>= validateMessage

/-- Method `Serializable.proto`, the alias of `to_proto` with an identical body. -/
def SerializableInstance.proto (self : SerializableInstance) :
    Except SerdeError ProtoMsg :=
  self.serialize true false >>= validateMessage

/-- Method `Serializable.to_bytes`: `validate_type(self.serialize(to_bytes=True), bytes)`
(`to_proto` keeps its default `True`). -/
def SerializableInstance.to_bytes (self : SerializableInstance) :
    Except SerdeError Bytes :=
  self.serialize true true >>= validateBytes

/-- Method `Serializable.binary`, the alias of `to_bytes` with an identical body. -/
def SerializableInstance.binary (self : SerializableInstance) :
    Except SerdeError Bytes :=
  self.serialize true true >>= validateBytes

/-- Property `Serializable.named`: `self.name if hasattr(self, "name") else "UNNAMED"`. -/
def SerializableInstance.named (self : SerializableInstance) : String :=
  match self.name with
  | some n => n
  | none => "UNNAMED"

/-! ## The unimplemented base contract

The abstract placeholders on the `Serializable` base class. A subclass
overrides them; a type that never did keeps these defaults, each of which
is `traceback_and_raise(NotImplementedError)`. -/

/-- An opaque stand-in for `GeneratedProtocolMessageType` values. -/
abbrev SchemaDescr := Nat

/-- An opaque stand-in for the Python types `get_wrapped_type` returns. -/
abbrev WrappedType := Nat

/-- The four overridable contract methods of `Serializable`, with the base
class's defaults: every one raises `NotImplementedError`. -/
structure SerializableClass (α : Type) where
  proto2object : ProtoMsg → Except SerdeError α := fun _ => .error .notImplemented
  object2proto : α → Except SerdeError ProtoMsg := fun _ => .error .notImplemented
  get_protobuf_schema : Except SerdeError SchemaDescr := .error .notImplemented
  get_wrapped_type : Except SerdeError WrappedType := .error .notImplemented

/-- The `Serializable` base class itself: no method overridden. -/
def Serializable.base (α : Type) : SerializableClass α := {}

/-! ## `bind_protobuf` registration

The decorator mutates the `schema2type` attribute on the class's schema
descriptor. The attribute's state is `Option (Option α)`: `none` when the
attribute is absent (`hasattr` false), `some v` when present holding `v`,
where `v = none` is the ambiguous sentinel `None` and `v = some cls` a
class reference. -/

/-- State of the `schema2type` attribute of one schema descriptor. -/
abbrev Schema2Type (α : Type) := Option (Option α)

/-- Decorator `bind_protobuf(cls)` as it acts on the descriptor returned by
`cls.get_protobuf_schema()`: if `hasattr(schema, "schema2type")` set it
to `None`, else set it to `cls`. (The decorator also returns `cls`,
which does not affect the attribute.) -/
def bind_protobuf (cls : α) (attr : Schema2Type α) : Schema2Type α :=
  match attr with
  | some _ => some none
  | none => some (some cls)

/-- Registering a sequence of classes against one descriptor, in order. -/
def registerAll (cs : List α) (attr : Schema2Type α) : Schema2Type α :=
  cs.foldl (fun st c => bind_protobuf c st) attr

/-! ## Concrete serializable types and the deserialize path

A concrete subclass overrides `_object2proto` / `_proto2object`; the
`deserialize` entry point and registry `resolve` live elsewhere in the
repository (not under `src/`), so they are modelled from the spec. -/

/-- A concrete serializable type: its fully-qualified name and its
overriding `_object2proto` / `_proto2object` implementations. -/
structure SerializableType (α : Type) where
  fqn : String
  object2proto : α → ProtoMsg
  proto2object : ProtoMsg → α

/-- View a value of a concrete serializable type as what the base-class
`serialize` dispatcher consults on it. -/
def SerializableType.mkInstance {α : Type} (T : SerializableType α) (i : α) :
    SerializableInstance :=
  { fqn := T.fqn, object2proto := .ok (T.object2proto i), name := none }

/-- Modelled from the spec: the Registry operation
`resolve(typeTagString) -> SerializableType | AmbiguousError | NotFoundError`
(the resolver is not under `src/`); here a lookup of the wire tag among
the registered types by fully-qualified name. -/
def resolve {α : Type} (registry : List (SerializableType α)) (tag : Bytes) :
    Option (SerializableType α) :=
  registry.find? (fun T => strBytes T.fqn == tag)

/-- Modelled from the spec: `deserialize(bytes) -> instance` (not under
`src/`): decode the Envelope, resolve the tag against the Registry, then
call the resolved type's `fromPayload` on the content. -/
def deserialize {α : Type} (registry : List (SerializableType α)) (b : Bytes) :
    Except SerdeError α :=
  match DataMessage.parseFields b with
  | none => .error .malformedEnvelope
  | some (tag, content) =>
    match resolve registry tag with
    | none => .error .unknownType
    | some T => .ok (T.proto2object ⟨content⟩)

/-! ## Concrete example values used by counterexamples and witnesses -/

/-- A concrete instance whose `_object2proto` yields the two-byte message
`[8, 1]` (a protobuf `Point`-style payload). -/
def exInst : SerializableInstance :=
  { fqn := "pkg.Point", object2proto := .ok ⟨[8, 1]⟩, name := none }

/-- A concrete instance carrying a `name` attribute, otherwise agreeing
with `exInst` on `fqn` and `_object2proto`. -/
def exInstNamed : SerializableInstance :=
  { fqn := "pkg.Point", object2proto := .ok ⟨[8, 1]⟩, name := some "a" }

/-- A concrete registered serializable type over `Bool` whose payloads
round-trip. -/
def exBoolType : SerializableType Bool :=
  { fqn := "pkg.Flag"
    object2proto := fun b => ⟨[if b then 1 else 0]⟩
    proto2object := fun m => decide (m.wire = [1]) }

/-! ## Helper lemmas shared by the claim proofs -/

/-- Once a descriptor's `schema2type` holds the ambiguous sentinel, any
run of further registrations leaves it there. -/
theorem registerAll_ambiguous {α : Type} (cs : List α) :
    registerAll cs (some (none : Option α)) = some none := by
  induction cs with
  | nil => rfl
  | cons c cs ih => exact ih

/-- Once a descriptor's `schema2type` attribute is present (a class or
the sentinel), any nonempty run of further registrations drives it to the
sentinel `None`. -/
theorem registerAll_cons_some {α : Type} (c : α) (cs : List α) (v : Option α) :
    registerAll (c :: cs) (some v) = some none :=
  registerAll_ambiguous cs

/-- Unfolding of `serialize` in bytes mode when `_object2proto` succeeds. -/
theorem serialize_to_bytes_eq {inst : SerializableInstance} {proto : ProtoMsg}
    (tp : Bool) (h : inst.object2proto = .ok proto) :
    inst.serialize tp true =
      .ok (.asBytes (DataMessage.serializeToString ⟨inst.fqn, proto.wire⟩)) := by
  simp [SerializableInstance.serialize, h]

/-- Unfolding of `deserialize` on a well-formed envelope: it resolves the
tag and applies the resolved type's `_proto2object` to the content. -/
theorem deserialize_serializeToString {α : Type} (registry : List (SerializableType α))
    (tag : String) (content : Bytes) :
    deserialize registry (DataMessage.serializeToString ⟨tag, content⟩) =
      match resolve registry (strBytes tag) with
      | none => .error .unknownType
      | some T => .ok (T.proto2object ⟨content⟩) := by
  unfold deserialize
  rw [DataMessage.parseFields_serializeToString]

/-! ## The claims -/

/-- C1, counterexample: the claim states that calling `serialize` with
both modes set returns the AsSchemaObject result produced by
`_object2proto`; on the concrete instance `exInst` it instead returns the
byte envelope, because the source checks `to_bytes` before `to_proto`. -/
theorem c1_both_modes_counterexample :
    exInst.serialize true true ≠
      Except.ok (SerializeResult.asProto ⟨[8, 1]⟩) ∧
    exInst.serialize true true =
      Except.ok (SerializeResult.asBytes
        (DataMessage.serializeToString ⟨"pkg.Point", [8, 1]⟩)) := by
  have hb : exInst.serialize true true =
      Except.ok (SerializeResult.asBytes
        (DataMessage.serializeToString ⟨"pkg.Point", [8, 1]⟩)) := rfl
  refine ⟨?_, hb⟩
  rw [hb]
  simp

/-- C1, amended: calling `serialize` with both modes logically set
returns the AsBytes result — the byte envelope — deterministically on
every call and not as an error (whenever `_object2proto` itself
succeeds); the `to_proto` flag is ignored once `to_bytes` is set. -/
theorem c1_both_modes_asBytes (inst : SerializableInstance) (proto : ProtoMsg)
    (h : inst.object2proto = .ok proto) :
    inst.serialize true true = inst.serialize false true ∧
    inst.serialize true true =
      .ok (.asBytes (DataMessage.serializeToString ⟨inst.fqn, proto.wire⟩)) := by
  refine ⟨?_, serialize_to_bytes_eq true h⟩
  rw [serialize_to_bytes_eq true h, serialize_to_bytes_eq false h]

/-- C1, witness for the amended theorem at the concrete `exInst`. -/
theorem c1_both_modes_asBytes_witness :
    exInst.object2proto = Except.ok ⟨[8, 1]⟩ ∧
    exInst.serialize true true =
      Except.ok (.asBytes (DataMessage.serializeToString ⟨exInst.fqn, [8, 1]⟩)) :=
  ⟨rfl, (c1_both_modes_asBytes exInst ⟨[8, 1]⟩ rfl).2⟩

/-- C2: over any registration sequence against one fresh descriptor, the
resulting `schema2type` is absent when nothing registered, exactly the
unique registered class when one registration happened, and the ambiguous
sentinel `None` whenever two or more happened — in particular after two
classes it is `None`, never silently one of the two candidates. -/
theorem c2_schema2type_unique_or_ambiguous {α : Type} :
    (∀ cs : List α,
      (cs = [] ∧ registerAll cs (none : Schema2Type α) = none) ∨
      (∃ c, cs = [c] ∧ registerAll cs (none : Schema2Type α) = some (some c)) ∨
      (2 ≤ cs.length ∧ registerAll cs (none : Schema2Type α) = some none)) ∧
    ∀ c₁ c₂ : α, registerAll [c₁, c₂] (none : Schema2Type α) = some none := by
  constructor
  · intro cs
    match cs with
    | [] => exact Or.inl ⟨rfl, rfl⟩
    | [c] => exact Or.inr (Or.inl ⟨c, rfl, rfl⟩)
    | c₁ :: c₂ :: rest =>
      refine Or.inr (Or.inr ⟨by simp only [List.length_cons]; omega, ?_⟩)
      exact registerAll_cons_some c₂ rest (some c₁)
  · intro c₁ c₂
    exact registerAll_cons_some c₂ [] (some c₁)

/-- C3: `serialize` in AsBytes mode returns the byte encoding of a
`DataMessage` envelope whose `obj_type` field is the instance's
fully-qualified name and whose `content` field is the wire encoding of
the `_object2proto()` message; parsing those bytes recovers both fields. -/
theorem c3_asBytes_envelope (inst : SerializableInstance) (proto : ProtoMsg) (tp : Bool)
    (h : inst.object2proto = .ok proto) :
    inst.serialize tp true =
      .ok (.asBytes (DataMessage.serializeToString ⟨inst.fqn, proto.wire⟩)) ∧
    DataMessage.parseFields (DataMessage.serializeToString ⟨inst.fqn, proto.wire⟩) =
      some (strBytes inst.fqn, proto.wire) :=
  ⟨serialize_to_bytes_eq tp h, DataMessage.parseFields_serializeToString _⟩

/-- C3, witness at a concrete instance. -/
theorem c3_asBytes_envelope_witness :
    exInstNamed.object2proto = Except.ok ⟨[8, 1]⟩ ∧
    DataMessage.parseFields (DataMessage.serializeToString ⟨exInstNamed.fqn, [8, 1]⟩) =
      some (strBytes exInstNamed.fqn, [8, 1]) :=
  ⟨rfl, (c3_asBytes_envelope exInstNamed ⟨[8, 1]⟩ false rfl).2⟩

/-- C4: for a registered serializable type whose `_proto2object` inverts
`_object2proto` (the contract's round-trip closure) and which the
registry resolves from its own tag, reconstruction from the payload is
the identity, and `deserialize` applied to the AsBytes serialization of
an instance yields an equal instance. -/
theorem c4_round_trip {α : Type} (registry : List (SerializableType α))
    (T : SerializableType α) (i : α)
    (hrt : ∀ j : α, T.proto2object (T.object2proto j) = j)
    (hres : resolve registry (strBytes T.fqn) = some T) :
    T.proto2object (T.object2proto i) = i ∧
    (T.mkInstance i).serialize true true =
      .ok (.asBytes (DataMessage.serializeToString ⟨T.fqn, (T.object2proto i).wire⟩)) ∧
    deserialize registry
      (DataMessage.serializeToString ⟨T.fqn, (T.object2proto i).wire⟩) = .ok i := by
  refine ⟨hrt i, serialize_to_bytes_eq true rfl, ?_⟩
  rw [deserialize_serializeToString, hres]
  exact congrArg Except.ok (hrt i)

/-- C4, witness at the concrete registered type `exBoolType`. -/
theorem c4_round_trip_witness :
    deserialize [exBoolType]
      (DataMessage.serializeToString
        ⟨exBoolType.fqn, (exBoolType.object2proto true).wire⟩) = Except.ok true :=
  (c4_round_trip [exBoolType] exBoolType true (by decide) rfl).2.2

/-- C5: on the base class, with no override, each of `_proto2object`,
`_object2proto`, `get_protobuf_schema` and `get_wrapped_type` fails with
`NotImplemented` rather than returning a silent default; for
`get_wrapped_type` that failure is the "not a wrapper" signal. -/
theorem c5_base_not_implemented {α : Type} :
    (∀ p : ProtoMsg, (Serializable.base α).proto2object p = .error .notImplemented) ∧
    (∀ a : α, (Serializable.base α).object2proto a = .error .notImplemented) ∧
    (Serializable.base α).get_protobuf_schema = .error .notImplemented ∧
    (Serializable.base α).get_wrapped_type = .error .notImplemented :=
  ⟨fun _ => rfl, fun _ => rfl, rfl, rfl⟩

/-- C6: calling `serialize` with neither mode selected fails with the
`NoModeSpecified` error on every instance and never returns a value. -/
theorem c6_no_mode_raises (inst : SerializableInstance) :
    inst.serialize false false = .error .noModeSpecified := rfl

/-- C7: the convenience wrappers `to_proto`/`proto` and
`to_bytes`/`binary` are extensionally equal pairs, each exactly
`serialize` with the corresponding flag followed by shape validation, and
a shape mismatch fails with `TypeMismatch`. -/
theorem c7_convenience_wrappers (inst : SerializableInstance) :
    inst.to_proto = inst.proto ∧
    inst.to_bytes = inst.binary ∧
    inst.to_proto = (inst.serialize true false >>= validateMessage) ∧
    inst.to_bytes = (inst.serialize true true >>= validateBytes) ∧
    (∀ b : Bytes, validateMessage (.asBytes b) = .error .typeMismatch) ∧
    (∀ m : ProtoMsg, validateBytes (.asProto m) = .error .typeMismatch) :=
  ⟨rfl, rfl, rfl, rfl, fun _ => rfl, fun _ => rfl⟩

/-- C8: `serialize` in AsBytes mode is deterministic — its output depends
only on the instance's fully-qualified name and the `_object2proto`
outcome, so two calls agreeing on those (in particular two runs on the
same instance) produce byte-identical envelopes, whatever the `to_proto`
flag. -/
theorem c8_serialize_bytes_deterministic (i₁ i₂ : SerializableInstance) (tp₁ tp₂ : Bool)
    (hfqn : i₁.fqn = i₂.fqn) (hproto : i₁.object2proto = i₂.object2proto) :
    i₁.serialize tp₁ true = i₂.serialize tp₂ true := by
  simp [SerializableInstance.serialize, hfqn, hproto]

/-- C8, witness: two concrete instances differing only in their `name`
attribute serialize to the same bytes. -/
theorem c8_serialize_bytes_deterministic_witness :
    exInst.fqn = exInstNamed.fqn ∧
    exInst.serialize true true = exInstNamed.serialize false true :=
  ⟨rfl, c8_serialize_bytes_deterministic exInst exInstNamed true false rfl rfl⟩

/-- C10: the `named` property returns the `name` attribute when present
and the string "UNNAMED" otherwise; being a total function, it never
fails. -/
theorem c10_named_attribute (inst : SerializableInstance) :
    (∀ n, inst.name = some n → inst.named = n) ∧
    (inst.name = none → inst.named = "UNNAMED") := by
  constructor
  · intro n h
    simp [SerializableInstance.named, h]
  · intro h
    simp [SerializableInstance.named, h]

/-- C10, witness at concrete instances with and without a `name`. -/
theorem c10_named_attribute_witness :
    exInstNamed.named = "a" ∧ exInst.named = "UNNAMED" :=
  ⟨(c10_named_attribute exInstNamed).1 "a" rfl, (c10_named_attribute exInst).2 rfl⟩

/-- C9: `bind_protobuf` is not idempotent — after any first registration,
any further registration against the same descriptor (the same class
included) sets `schema2type` to the sentinel `None`, and once the
sentinel is set no sequence of registrations ever reverts it to a single
class. -/
theorem c9_bind_protobuf_not_idempotent {α : Type} :
    (∀ c c' : α, bind_protobuf c' (bind_protobuf c none) = some none) ∧
    (∀ c : α, registerAll [c, c] (none : Schema2Type α) = some none) ∧
    (∀ cs : List α, registerAll cs (some (none : Option α)) = some none) :=
  ⟨fun _ _ => rfl, fun c => registerAll_cons_some c [] (some c), registerAll_ambiguous⟩

end PySyft
